import Mathlib

/-!
# Verification of the node-auth authentication backend

Shallow embedding of the TypeScript authentication service: the DTO
validators, the bcrypt/JWT adapter contracts (as parameters), the Mongo
datasource (`login`/`register`), the user mapper, the user service
(`findById`/`getAllUsers`), the authorization middleware
(`AuthMiddleware.validateJWT`), and the controller's protected listing
endpoint.  The persistent store is modelled as a list of Mongo documents;
external adapters (bcrypt compare/hash, JWT sign/verify, the email regex)
are modelled as function parameters, matching the source's dependency
injection.  Claims from the specification are then proved or refuted.
-/

namespace NodeAuth

/-! ## JavaScript-value helpers

The source manipulates possibly-`undefined` strings with JS truthiness.
`none` models `undefined`/`null`; `some ""` is falsy like in JS. -/

/-- JS falsiness of a possibly-undefined string: `undefined`, `null` and
`""` are falsy. -/
def jsFalsy : Option String → Bool
  | none => true
  | some s => s = ""

/-- JS `a || b` on possibly-undefined strings, collapsed to a plain string
(callers use it only where the result is known truthy). -/
def jsOr (a b : Option String) : String :=
  if jsFalsy a then b.getD "" else a.getD ""

/-- JS `s.startsWith(p)`: `p` is a prefix of `s` (over characters). -/
def jsStartsWith (s p : String) : Bool :=
  s.toList.take p.toList.length == p.toList

/-- JS `s.split(" ")` over a character list: splits at every space,
keeping empty chunks, and yields `[""]` on the empty string. -/
def splitSpChars : List Char → List (List Char)
  | [] => [[]]
  | c :: rest =>
    let r := splitSpChars rest
    if c = ' ' then [] :: r
    else
      match r with
      | h :: t => (c :: h) :: t
      | [] => [[c]]

/-- JS `s.split(" ")`. -/
def jsSplitSp (s : String) : List String :=
  (splitSpChars s.toList).map (fun l => String.mk l)

/-! ## Error model

`CustomError` carries an HTTP status plus message (domain/errors).  A
thrown plain `Error` (as `LoginUser` throws on token failure) is a
separate constructor: the boundary's `handleError` maps it to a generic
500. -/

/-- domain/errors: `CustomError` with `statusCode` and `message`. -/
structure CustomError where
  statusCode : Nat
  message : String
  deriving Repr, DecidableEq

/-- `CustomError.badRequest` -/
def CustomError.badRequest (m : String) : CustomError := ⟨400, m⟩

/-- `CustomError.unauthorized` -/
def CustomError.unauthorized (m : String) : CustomError := ⟨401, m⟩

/-- `CustomError.internalServerError` -/
def CustomError.internalServerError (m : String) : CustomError := ⟨500, m⟩

/-- A thrown JS error: either a typed `CustomError` or a plain `Error`. -/
inductive AppError where
  | custom (e : CustomError)
  | plain (msg : String)
  deriving Repr, DecidableEq

/-- `AuthController.handleError`: a `CustomError` keeps its status and
message; anything else becomes `500 "Internal Server Error"`. -/
def handleError : AppError → Nat × String
  | .custom e => (e.statusCode, e.message)
  | .plain _ => (500, "Internal Server Error")

/-! ## Data model -/

/-- A stored Mongo user document.  Mongoose documents carry `_id` (and the
mirroring `id` virtual); fields are possibly absent, as the mapper's guard
clauses anticipate.  `roles` defaults are applied by the schema at create
time and by the mapper at read time. -/
structure UserDoc where
  _id : Option String
  id : Option String
  name : Option String
  email : Option String
  password : Option String
  roles : Option (List String)
  deriving Repr, DecidableEq

/-- domain/entities: `UserEntity(id, name, email, password, role)`.
Modelled from the spec: the entity class itself is not under src/, but its
constructor-argument order and the `role` field name are fixed by its call
sites (`UserMapper`, `AuthDatasourceImpl`, `AuthController.getUsers`). -/
structure UserEntity where
  id : String
  name : String
  email : String
  password : String
  role : List String
  deriving Repr, DecidableEq

/-- `UserMapper.userEntityFromObject`: destructures the document with a
`roles = ["USER_ROLE"]` default, throws `badRequest` on a missing
(falsy) id, name, email or password, and otherwise builds
`UserEntity(id || _id, name, email, password, roles)`. -/
def UserMapper.userEntityFromObject (o : UserDoc) : Except CustomError UserEntity :=
  let roles := o.roles.getD ["USER_ROLE"]
  if jsFalsy o._id ∧ jsFalsy o.id then
    .error (CustomError.badRequest "Missing user id")
  else if jsFalsy o.name then
    .error (CustomError.badRequest "Missing user name")
  else if jsFalsy o.email then
    .error (CustomError.badRequest "Missing user email")
  else if jsFalsy o.password then
    .error (CustomError.badRequest "Missing user password")
  else
    .ok ⟨jsOr o.id o._id, o.name.getD "", o.email.getD "", o.password.getD "", roles⟩

/-! ## Store queries

`UserModel.findOne({email})` and `UserModel.findById(id)` are read-only
Mongo queries; over the list-of-documents store they are first-match
searches (Mongo's natural order). -/

/-- `UserModel.findOne({ email })`: first document whose `email` field
equals the given string. -/
def findOneByEmail (store : List UserDoc) (email : String) : Option UserDoc :=
  store.find? (fun d => d.email == some email)

/-- `UserModel.findById(id)`: first document whose `_id` equals the given
id. -/
def findDocById (store : List UserDoc) (id : String) : Option UserDoc :=
  store.find? (fun d => d._id == some id)

/-! ## DTOs

`RegisterUserDto.create` / `LoginUserDto.create` validate a raw request
body and return `{error}` or `{dto}`.  The email regex
(`Validators.email.test`) lives in config/validators.ts, outside the
embedded core, so it is a function parameter `emailTest`, exactly as the
source consults it. -/

/-- A raw JSON request body for the auth endpoints: each field possibly
absent. -/
structure RawBody where
  name : Option String
  email : Option String
  password : Option String
  deriving Repr, DecidableEq

/-- `RegisterUserDto`: validated name, email, plaintext password. -/
structure RegisterUserDto where
  name : String
  email : String
  password : String
  deriving Repr, DecidableEq

/-- `LoginUserDto`: validated email, plaintext password. -/
structure LoginUserDto where
  email : String
  password : String
  deriving Repr, DecidableEq

/-- `RegisterUserDto.create`: missing (falsy) name, then missing email,
then email-pattern failure, then missing password, then password length
< 6, each short-circuits with its error; otherwise the DTO carries the
three fields unchanged. -/
def RegisterUserDto.create (emailTest : String → Bool) (o : RawBody) :
    Except String RegisterUserDto :=
  if jsFalsy o.name then .error "Missing name"
  else if jsFalsy o.email then .error "Missing email"
  else if ¬ emailTest (o.email.getD "") then .error "Invalid email format"
  else if jsFalsy o.password then .error "Missing password"
  else if (o.password.getD "").length < 6 then
    .error "Password must be at least 6 characters long"
  else
    .ok ⟨o.name.getD "", o.email.getD "", o.password.getD ""⟩

/-- `LoginUserDto.create`: missing email, email-pattern failure, missing
password, each short-circuits; no password-length check at login. -/
def LoginUserDto.create (emailTest : String → Bool) (o : RawBody) :
    Except String LoginUserDto :=
  if jsFalsy o.email then .error "Missing email"
  else if ¬ emailTest (o.email.getD "") then .error "Invalid email format"
  else if jsFalsy o.password then .error "Missing password"
  else .ok ⟨o.email.getD "", o.password.getD ""⟩

/-! ## Datasource (AuthMongoDatasourceImpl)

`login` and `register` run against the document store.  The bcrypt
adapter's `hash`/`compare` are injected exactly as in the constructor.
`register` returns the resulting store alongside the result, so that
write effects are visible: the created document is appended by
`UserModel.create`. -/

/-- Modelled from the spec: the Mongo user schema (data/mongodb, not under
src/) assigns `_id` at create time and defaults `roles` to the single
standard role `["user"]` when registration omits it ("roles (list of
strings, default `[\"user\"]`)"). -/
def defaultRoles : List String := ["user"]

/-- `AuthMongoDatasourceImpl.login`: find by email; absent user and failed
password comparison both throw `unauthorized "Invalid credentials"`;
otherwise the found document is mapped to a `UserEntity` (mapper errors
propagate as `CustomError`s through the catch clause). -/
def AuthMongoDatasourceImpl.login (comparePassword : String → String → Bool)
    (store : List UserDoc) (dto : LoginUserDto) : Except CustomError UserEntity :=
  match findOneByEmail store dto.email with
  | none => .error (CustomError.unauthorized "Invalid credentials")
  | some user =>
    if comparePassword dto.password (user.password.getD "") then
      UserMapper.userEntityFromObject user
    else
      .error (CustomError.unauthorized "Invalid credentials")

/-- `AuthMongoDatasourceImpl.register`: an existing document with the same
email throws `badRequest "User already exists"` before any write;
otherwise `UserModel.create` appends a document with the hash of the
password, Mongo-assigned `_id = newId`, and the schema's default roles,
and the created document is mapped to a `UserEntity`.  The second
component is the store after the call. -/
def AuthMongoDatasourceImpl.register (hashPassword : String → String)
    (store : List UserDoc) (newId : String) (dto : RegisterUserDto) :
    Except CustomError UserEntity × List UserDoc :=
  match findOneByEmail store dto.email with
  | some _ => (.error (CustomError.badRequest "User already exists"), store)
  | none =>
    let doc : UserDoc :=
      { _id := some newId, id := some newId, name := some dto.name,
        email := some dto.email, password := some (hashPassword dto.password),
        roles := some defaultRoles }
    (UserMapper.userEntityFromObject doc, store ++ [doc])

/-! ## Token signing and the use cases -/

/-- The claims object passed to `JwtAdapter.generateToken`: `{ id }`. -/
structure TokenPayload where
  id : String
  deriving Repr, DecidableEq

/-- `SignTokenFunction`: payload and TTL to a token, `none` when signing
fails (the adapter resolves `null` on error). -/
def SignTokenFunction : Type := TokenPayload → String → Option String

/-- The public projection `{id, name, email}` returned inside a
`UserToken`. -/
structure PublicUser where
  id : String
  name : String
  email : String
  deriving Repr, DecidableEq

/-- `UserToken`: `{ token, user: {id, name, email} }`. -/
structure UserToken where
  token : String
  user : PublicUser
  deriving Repr, DecidableEq

/-- `RegisterUser.execute`: registers through the repository, signs
`{id: user.id}` with TTL `"2h"`, throws
`CustomError.internalServerError "Failed to generate token"` when the
token is falsy (`null` or `""`), and otherwise returns
`{token, user: {id, name, email}}`. -/
def RegisterUser.execute (repoRegister : RegisterUserDto → Except CustomError UserEntity)
    (signToken : SignTokenFunction) (dto : RegisterUserDto) : Except AppError UserToken :=
  match repoRegister dto with
  | .error e => .error (.custom e)
  | .ok user =>
    match signToken ⟨user.id⟩ "2h" with
    | none => .error (.custom (CustomError.internalServerError "Failed to generate token"))
    | some t =>
      if t = "" then
        .error (.custom (CustomError.internalServerError "Failed to generate token"))
      else
        .ok ⟨t, ⟨user.id, user.name, user.email⟩⟩

/-- `LoginUser.execute`: logs in through the repository, signs
`{id: user.id}` with TTL `"2h"`, throws a plain
`Error("Failed to generate token")` (not a `CustomError`) when the token
is falsy, and otherwise returns `{token, user: {id, name, email}}`. -/
def LoginUser.execute (repoLogin : LoginUserDto → Except CustomError UserEntity)
    (signToken : SignTokenFunction) (dto : LoginUserDto) : Except AppError UserToken :=
  match repoLogin dto with
  | .error e => .error (.custom e)
  | .ok user =>
    match signToken ⟨user.id⟩ "2h" with
    | none => .error (.plain "Failed to generate token")
    | some t =>
      if t = "" then .error (.plain "Failed to generate token")
      else .ok ⟨t, ⟨user.id, user.name, user.email⟩⟩

/-! ## User service (UserServiceImpl) -/

/-- `UserServiceImpl.findById`: `UserModel.findById`, `null` when no
document matches (not an error), otherwise the document mapped to a
`UserEntity` (mapper errors propagate — there is no catch here). -/
def UserServiceImpl.findById (store : List UserDoc) (id : String) :
    Except CustomError (Option UserEntity) :=
  match findDocById store id with
  | none => .ok none
  | some doc => (UserMapper.userEntityFromObject doc).map some

/-- `UserServiceImpl.getAllUsers`: `UserModel.find()` then map every
document through the mapper, left to right; the first mapper error
propagates and aborts the whole mapping. -/
def UserServiceImpl.getAllUsers : List UserDoc → Except CustomError (List UserEntity)
  | [] => .ok []
  | doc :: rest =>
    match UserMapper.userEntityFromObject doc with
    | .error e => .error e
    | .ok u =>
      match UserServiceImpl.getAllUsers rest with
      | .error e => .error e
      | .ok us => .ok (u :: us)

/-- `UserServiceImpl.findById` with the store threaded through: the
implementation issues only the read query `findById`, so the store after
the call is the store before it. -/
def UserServiceImpl.findByIdRun (store : List UserDoc) (id : String) :
    Except CustomError (Option UserEntity) × List UserDoc :=
  (UserServiceImpl.findById store id, store)

/-- `UserServiceImpl.getAllUsers` with the store threaded through: the
implementation issues only the read query `find()`. -/
def UserServiceImpl.getAllUsersRun (store : List UserDoc) :
    Except CustomError (List UserEntity) × List UserDoc :=
  (UserServiceImpl.getAllUsers store, store)

/-! ## Authorization middleware (AuthMiddleware.validateJWT)

`req.headers["authorization"]` is `string | string[] | undefined`; the
middleware first collapses an array to its first element.  Token
verification (`JwtAdapter.validateToken`) resolves `null` on any
structural, signature, or expiry failure, and is injected as a parameter
`verify`.  The user lookup goes through `UserServiceImpl.findById`; a
`CustomError` thrown there is caught by the surrounding try/catch and
becomes 500. -/

/-- A decoded JWT payload, `{ id: string }`. -/
structure JwtPayload where
  id : String
  deriving Repr, DecidableEq

/-- A value stored under one key of `req.body`: a client-supplied JSON
value, or the server-attached decoded payload or resolved user. -/
inductive BodyVal where
  | client (s : String)
  | payload (p : JwtPayload)
  | user (u : UserEntity)
  deriving Repr, DecidableEq

/-- The `authorization` header as Node delivers it: a single string or an
array of strings. -/
inductive HeaderValue where
  | str (s : String)
  | arr (l : List String)
  deriving Repr, DecidableEq

/-- The slice of an Express request the middleware touches. -/
structure MwRequest where
  authorization : Option HeaderValue
  body : String → Option BodyVal

/-- The middleware's outcome on one request: a terminal
`res.status(status).json({error})`, or `next()` with the rewritten
`req.body`. -/
inductive MwResult where
  | reject (status : Nat) (error : String)
  | proceed (body : String → Option BodyVal)

/-- `MwResult.is401`: the middleware terminated the request with status
401. -/
def MwResult.is401 : MwResult → Prop
  | .reject s _ => s = 401
  | .proceed _ => False

/-- `MwResult.isProceed`: the middleware called `next()`. -/
def MwResult.isProceed : MwResult → Prop
  | .reject _ _ => False
  | .proceed _ => True

/-- The middleware's header normalization:
`Array.isArray(authHeader) ? authHeader[0] : authHeader` (indexing an
empty array yields `undefined`). -/
def normalizeAuthHeader : Option HeaderValue → Option String
  | none => none
  | some (.str s) => some s
  | some (.arr l) => l.head?

/-- `autorization.split(" ").at(1) || ""`: the second space-delimited
chunk, or `""`. -/
def extractToken (a : String) : String :=
  match (jsSplitSp a).get? 1 with
  | none => ""
  | some t => t

/-- `AuthMiddleware.validateJWT` (part_005): normalize the header; falsy →
401 "Unauthorized"; no `"Bearer "` prefix → 401 "Unauthorized: Invalid
Token"; extract the token; null claims → 401 "Unauthorized: Invalid
Token"; user lookup null → 401 "Unauthorized: User not found"; a thrown
lookup error → 500; otherwise `req.body = { ...req.body, payload, user }`
and `next()`. -/
def AuthMiddleware.validateJWT (verify : String → Option JwtPayload)
    (store : List UserDoc) (req : MwRequest) : MwResult :=
  match normalizeAuthHeader req.authorization with
  | none => .reject 401 "Unauthorized"
  | some a =>
    if a = "" then .reject 401 "Unauthorized"
    else if ¬ jsStartsWith a "Bearer " then .reject 401 "Unauthorized: Invalid Token"
    else
      match verify (extractToken a) with
      | none => .reject 401 "Unauthorized: Invalid Token"
      | some payload =>
        match UserServiceImpl.findById store payload.id with
        | .error _ => .reject 500 "Internal Server Error"
        | .ok none => .reject 401 "Unauthorized: User not found"
        | .ok (some user) =>
          .proceed (fun k =>
            if k = "user" then some (.user user)
            else if k = "payload" then some (.payload payload)
            else req.body k)

/-! ## JSON rendering and the protected listing endpoint

`res.json(x)` serializes `x` with `JSON.stringify`: own enumerable
properties in creation order; `undefined`-valued keys are omitted. -/

/-- A JSON value. -/
inductive Json where
  | null
  | str (s : String)
  | arr (l : List Json)
  | obj (fields : List (String × Json))

/-- All keys occurring anywhere in a JSON value. -/
def Json.keys : Json → List String
  | .null => []
  | .str _ => []
  | .arr l => keysList l
  | .obj l => keysKV l
where
  keysList : List Json → List String
    | [] => []
    | j :: t => j.keys ++ keysList t
  keysKV : List (String × Json) → List String
    | [] => []
    | (k, j) :: t => k :: (j.keys ++ keysKV t)

/-- All string leaves occurring anywhere in a JSON value. -/
def Json.strings : Json → List String
  | .null => []
  | .str s => [s]
  | .arr l => stringsList l
  | .obj l => stringsKV l
where
  stringsList : List Json → List String
    | [] => []
    | j :: t => j.strings ++ stringsList t
  stringsKV : List (String × Json) → List String
    | [] => []
    | (_, j) :: t => j.strings ++ stringsKV t

/-- `JSON.stringify` of a `UserToken` as register/login respond with it:
`{token, user: {id, name, email}}`. -/
def userTokenJson (ut : UserToken) : Json :=
  .obj [("token", .str ut.token),
        ("user", .obj [("id", .str ut.user.id),
                       ("name", .str ut.user.name),
                       ("email", .str ut.user.email)])]

/-- `JSON.stringify` of a full `UserEntity` instance (all constructor
fields, in declaration order) — this is what serializing the entity
attached by the middleware produces. -/
def userEntityJson (u : UserEntity) : Json :=
  .obj [("id", .str u.id), ("name", .str u.name), ("email", .str u.email),
        ("password", .str u.password), ("role", .arr (u.role.map .str))]

/-- The controller's per-user projection in `getUsers`:
`{id, name, email, role}`. -/
def listedUserJson (u : UserEntity) : Json :=
  .obj [("id", .str u.id), ("name", .str u.name), ("email", .str u.email),
        ("role", .arr (u.role.map .str))]

/-- Serialization of one `req.body` value. -/
def bodyValJson : BodyVal → Json
  | .client s => .str s
  | .payload p => .obj [("id", .str p.id)]
  | .user u => userEntityJson u

/-- `AuthController.getUsers`: run `GetUsers` (i.e.
`userService.getAllUsers`), respond
`{users: users.map(u => ({id, name, email, role})), authenticatedUser:
req.body?.user}` (the key is omitted when `req.body.user` is undefined);
errors go through `handleError`. -/
def AuthController.getUsers (store : List UserDoc) (body : String → Option BodyVal) :
    Except (Nat × String) Json :=
  match UserServiceImpl.getAllUsers store with
  | .error e => .error (handleError (.custom e))
  | .ok users =>
    .ok (.obj (("users", .arr (users.map listedUserJson)) ::
      (match body "user" with
       | none => []
       | some v => [("authenticatedUser", bodyValJson v)])))

/-- The protected listing route `GET /`: the middleware runs first and a
rejection is the response; on `next()` the controller runs with the
rewritten body. -/
def protectedListing (verify : String → Option JwtPayload) (store : List UserDoc)
    (req : MwRequest) : Except (Nat × String) Json :=
  match AuthMiddleware.validateJWT verify store req with
  | .reject s e => .error (s, e)
  | .proceed newBody => AuthController.getUsers store newBody

/-! ## Concrete scenario used by witnesses and counterexamples -/

/-- A one-user store: Ann, with the stored bcrypt digest `"HASH"`. -/
def demoStore : List UserDoc :=
  [{ _id := some "u1", id := some "u1", name := some "Ann",
     email := some "ann@x.com", password := some "HASH", roles := some ["user"] }]

/-- A verifier accepting exactly the token `"tok"` for subject `"u1"`. -/
def demoVerify : String → Option JwtPayload :=
  fun t => if t = "tok" then some ⟨"u1"⟩ else none

/-- A request carrying `Authorization: Bearer tok` and an empty body. -/
def demoReq : MwRequest := ⟨some (.str "Bearer tok"), fun _ => none⟩

/-- The body the middleware hands to the controller on `demoReq`: the
spread of the empty client body with the decoded payload and Ann. -/
def demoBody : String → Option BodyVal := fun k =>
  if k = "user" then some (.user ⟨"u1", "Ann", "ann@x.com", "HASH", ["user"]⟩)
  else if k = "payload" then some (.payload ⟨"u1"⟩)
  else demoReq.body k

/-- A concrete email test accepting exactly Ann's address. -/
def demoEmailTest : String → Bool := fun e => e == "ann@x.com"

/-! ## Lemmas about the middleware -/

/-- An absent (or falsy) normalized header terminates with
`401 "Unauthorized"`. -/
lemma validateJWT_no_header (v : String → Option JwtPayload) (st : List UserDoc)
    (req : MwRequest) (h : normalizeAuthHeader req.authorization = none) :
    AuthMiddleware.validateJWT v st req = .reject 401 "Unauthorized" := by
  unfold AuthMiddleware.validateJWT
  rw [h]

/-- A normalized header without the `"Bearer "` prefix terminates with a
401 (either the falsy-header 401 or the invalid-token 401) and never
proceeds. -/
lemma validateJWT_bad_prefix (v : String → Option JwtPayload) (st : List UserDoc)
    (req : MwRequest) (a : String) (hn : normalizeAuthHeader req.authorization = some a)
    (hb : jsStartsWith a "Bearer " = false) :
    (AuthMiddleware.validateJWT v st req).is401 ∧
      ¬ (AuthMiddleware.validateJWT v st req).isProceed := by
  unfold AuthMiddleware.validateJWT
  rw [hn]
  by_cases ha : a = ""
  · simp [ha, MwResult.is401, MwResult.isProceed]
  · simp [ha, hb, MwResult.is401, MwResult.isProceed]

/-- A token that fails verification terminates with a 401 and never
proceeds (whatever the header looked like). -/
lemma validateJWT_verify_none (v : String → Option JwtPayload) (st : List UserDoc)
    (req : MwRequest) (a : String) (hn : normalizeAuthHeader req.authorization = some a)
    (hv : v (extractToken a) = none) :
    (AuthMiddleware.validateJWT v st req).is401 ∧
      ¬ (AuthMiddleware.validateJWT v st req).isProceed := by
  unfold AuthMiddleware.validateJWT
  rw [hn]
  by_cases ha : a = ""
  · simp [ha, MwResult.is401, MwResult.isProceed]
  · by_cases hb : jsStartsWith a "Bearer " = true
    · simp [ha, hb, hv, MwResult.is401, MwResult.isProceed]
    · simp [ha, hb, MwResult.is401, MwResult.isProceed]

/-- A verified token whose subject id has no stored user terminates with
`401 "Unauthorized: User not found"`. -/
lemma validateJWT_user_missing (v : String → Option JwtPayload) (st : List UserDoc)
    (req : MwRequest) (a : String) (p : JwtPayload)
    (hn : normalizeAuthHeader req.authorization = some a) (ha : a ≠ "")
    (hb : jsStartsWith a "Bearer " = true) (hv : v (extractToken a) = some p)
    (hf : UserServiceImpl.findById st p.id = .ok none) :
    AuthMiddleware.validateJWT v st req = .reject 401 "Unauthorized: User not found" := by
  unfold AuthMiddleware.validateJWT
  rw [hn]
  simp [ha, hb, hv, hf]

/-- Inversion: the middleware proceeds only from the fully successful
path, and the rewritten body is the spread
`{ ...req.body, payload, user }`. -/
lemma validateJWT_proceed_inv (v : String → Option JwtPayload) (st : List UserDoc)
    (req : MwRequest) (b : String → Option BodyVal)
    (h : AuthMiddleware.validateJWT v st req = .proceed b) :
    ∃ a p u, normalizeAuthHeader req.authorization = some a ∧ a ≠ "" ∧
      jsStartsWith a "Bearer " = true ∧ v (extractToken a) = some p ∧
      UserServiceImpl.findById st p.id = .ok (some u) ∧
      b = (fun k =>
        if k = "user" then some (.user u)
        else if k = "payload" then some (.payload p)
        else req.body k) := by
  unfold AuthMiddleware.validateJWT at h
  split at h
  next hn => exact absurd h (by simp)
  next a hn =>
    split at h
    next ha => exact absurd h (by simp)
    next ha =>
      split at h
      next hb => exact absurd h (by simp)
      next hb =>
        split at h
        next hv => exact absurd h (by simp)
        next p hv =>
          split at h
          next e hf => exact absurd h (by simp)
          next hf => exact absurd h (by simp)
          next u hf =>
            injection h with h
            exact ⟨a, p, u, hn, ha, not_not.mp hb, hv, hf, h.symm⟩

/-! ## The claims -/

/-- C1: the authorization middleware invokes the downstream handler only
after the token verified to non-null claims and the user lookup returned a
non-null user; a request with no `Authorization` header, one whose header
lacks the `"Bearer "` prefix, one whose token fails verification, and one
whose token resolves to an id with no stored user, each terminates with a
401 and never proceeds. -/
theorem claim1_authorization_gating (v : String → Option JwtPayload)
    (st : List UserDoc) (req : MwRequest) :
    ((AuthMiddleware.validateJWT v st req).isProceed →
       ∃ a p u, normalizeAuthHeader req.authorization = some a ∧
         v (extractToken a) = some p ∧
         UserServiceImpl.findById st p.id = .ok (some u))
    ∧ (req.authorization = none →
        AuthMiddleware.validateJWT v st req = .reject 401 "Unauthorized")
    ∧ (∀ a, normalizeAuthHeader req.authorization = some a →
        jsStartsWith a "Bearer " = false →
        (AuthMiddleware.validateJWT v st req).is401 ∧
          ¬ (AuthMiddleware.validateJWT v st req).isProceed)
    ∧ (∀ a, normalizeAuthHeader req.authorization = some a →
        v (extractToken a) = none →
        (AuthMiddleware.validateJWT v st req).is401 ∧
          ¬ (AuthMiddleware.validateJWT v st req).isProceed)
    ∧ (∀ a p, normalizeAuthHeader req.authorization = some a → a ≠ "" →
        jsStartsWith a "Bearer " = true → v (extractToken a) = some p →
        UserServiceImpl.findById st p.id = .ok none →
        AuthMiddleware.validateJWT v st req =
          .reject 401 "Unauthorized: User not found") := by
  refine ⟨?_, ?_, ?_, ?_, ?_⟩
  · intro hp
    cases hres : AuthMiddleware.validateJWT v st req with
    | reject s e => rw [hres] at hp; exact absurd hp (by simp [MwResult.isProceed])
    | proceed b =>
      obtain ⟨a, p, u, hn, _, _, hv, hf, _⟩ := validateJWT_proceed_inv v st req b hres
      exact ⟨a, p, u, hn, hv, hf⟩
  · intro h
    exact validateJWT_no_header v st req (by simp [normalizeAuthHeader, h])
  · intro a hn hb
    exact validateJWT_bad_prefix v st req a hn hb
  · intro a hn hv
    exact validateJWT_verify_none v st req a hn hv
  · intro a p hn ha hb hv hf
    exact validateJWT_user_missing v st req a p hn ha hb hv hf

/-- Witness for C1 at concrete requests: the missing-header request is
rejected `401 "Unauthorized"`, and a garbage token under `demoVerify` is
rejected with a 401 and does not proceed. -/
theorem claim1_authorization_gating_witness :
    AuthMiddleware.validateJWT demoVerify demoStore ⟨none, fun _ => none⟩ =
        .reject 401 "Unauthorized"
    ∧ ((AuthMiddleware.validateJWT demoVerify demoStore
          ⟨some (.str "Bearer garbage"), fun _ => none⟩).is401 ∧
        ¬ (AuthMiddleware.validateJWT demoVerify demoStore
          ⟨some (.str "Bearer garbage"), fun _ => none⟩).isProceed) :=
  ⟨(claim1_authorization_gating demoVerify demoStore ⟨none, fun _ => none⟩).2.1 rfl,
   (claim1_authorization_gating demoVerify demoStore
      ⟨some (.str "Bearer garbage"), fun _ => none⟩).2.2.2.1 "Bearer garbage" rfl rfl⟩

/-- C2: whenever the `Authorization` header is present, if its value (the
first element, when array-valued) does not start with the literal
`"Bearer "`, the middleware rejects with a 401 and does not proceed; in
particular an array-valued header does not bypass the prefix check. -/
theorem claim2_prefix_check_no_array_bypass (v : String → Option JwtPayload)
    (st : List UserDoc) (req : MwRequest) :
    (∀ s, req.authorization = some (.str s) → jsStartsWith s "Bearer " = false →
      (AuthMiddleware.validateJWT v st req).is401 ∧
        ¬ (AuthMiddleware.validateJWT v st req).isProceed)
    ∧ (∀ l a, req.authorization = some (.arr l) → l.head? = some a →
        jsStartsWith a "Bearer " = false →
        (AuthMiddleware.validateJWT v st req).is401 ∧
          ¬ (AuthMiddleware.validateJWT v st req).isProceed) := by
  constructor
  · intro s h hb
    exact validateJWT_bad_prefix v st req s (by simp [normalizeAuthHeader, h]) hb
  · intro l a h hh hb
    exact validateJWT_bad_prefix v st req a (by simp [normalizeAuthHeader, h, hh]) hb

/-- Witness for C2: the array-valued header `["Basic x"]` is rejected with
a 401 and does not proceed. -/
theorem claim2_prefix_check_no_array_bypass_witness :
    (AuthMiddleware.validateJWT demoVerify demoStore
        ⟨some (.arr ["Basic x"]), fun _ => none⟩).is401 ∧
      ¬ (AuthMiddleware.validateJWT demoVerify demoStore
        ⟨some (.arr ["Basic x"]), fun _ => none⟩).isProceed :=
  (claim2_prefix_check_no_array_bypass demoVerify demoStore
      ⟨some (.arr ["Basic x"]), fun _ => none⟩).2 ["Basic x"] "Basic x" rfl rfl rfl

/-- C3: a login whose email has no stored user and a login whose password
fails the hash comparison fail with the identical
`unauthorized "Invalid credentials"` error (status 401), so the two
causes are indistinguishable. -/
theorem claim3_login_indistinguishable_failures
    (comparePassword : String → String → Bool) (store : List UserDoc)
    (dto : LoginUserDto) :
    (findOneByEmail store dto.email = none →
      AuthMongoDatasourceImpl.login comparePassword store dto =
        .error (CustomError.unauthorized "Invalid credentials"))
    ∧ (∀ u, findOneByEmail store dto.email = some u →
        comparePassword dto.password (u.password.getD "") = false →
        AuthMongoDatasourceImpl.login comparePassword store dto =
          .error (CustomError.unauthorized "Invalid credentials"))
    ∧ (CustomError.unauthorized "Invalid credentials").statusCode = 401
    ∧ (CustomError.unauthorized "Invalid credentials").message = "Invalid credentials" := by
  refine ⟨?_, ?_, rfl, rfl⟩
  · intro h
    unfold AuthMongoDatasourceImpl.login
    rw [h]
  · intro u hu hc
    unfold AuthMongoDatasourceImpl.login
    rw [hu]
    simp [hc]

/-- Witness for C3: under an empty store, and under `demoStore` with an
always-false comparison, login fails with the same
`401 "Invalid credentials"` error. -/
theorem claim3_login_indistinguishable_failures_witness :
    AuthMongoDatasourceImpl.login (fun _ _ => false) [] ⟨"ann@x.com", "pw"⟩ =
        .error (CustomError.unauthorized "Invalid credentials")
    ∧ AuthMongoDatasourceImpl.login (fun _ _ => false) demoStore ⟨"ann@x.com", "pw"⟩ =
        .error (CustomError.unauthorized "Invalid credentials") :=
  ⟨(claim3_login_indistinguishable_failures (fun _ _ => false) [] ⟨"ann@x.com", "pw"⟩).1 rfl,
   (claim3_login_indistinguishable_failures (fun _ _ => false) demoStore
      ⟨"ann@x.com", "pw"⟩).2.1 _ rfl rfl⟩

/-- C4: a registration whose email already has a stored user fails with
`badRequest "User already exists"` (status 400) before any write, and the
store is returned unchanged. -/
theorem claim4_duplicate_register_no_write (hashPassword : String → String)
    (store : List UserDoc) (newId : String) (dto : RegisterUserDto) (u : UserDoc)
    (h : findOneByEmail store dto.email = some u) :
    AuthMongoDatasourceImpl.register hashPassword store newId dto =
      (.error (CustomError.badRequest "User already exists"), store)
    ∧ (CustomError.badRequest "User already exists").statusCode = 400 := by
  refine ⟨?_, rfl⟩
  unfold AuthMongoDatasourceImpl.register
  rw [h]

/-- Witness for C4: registering Ann's email again against `demoStore`
fails with `400 "User already exists"` and leaves the store unchanged. -/
theorem claim4_duplicate_register_no_write_witness :
    AuthMongoDatasourceImpl.register (fun p => p) demoStore "u2"
        ⟨"Ann", "ann@x.com", "secret1"⟩ =
      (.error (CustomError.badRequest "User already exists"), demoStore) :=
  (claim4_duplicate_register_no_write (fun p => p) demoStore "u2"
      ⟨"Ann", "ann@x.com", "secret1"⟩ _ rfl).1

/-! ## JSON shape lemmas -/

/-- An array of string leaves contributes no keys. -/
lemma keysList_map_str (l : List String) :
    Json.keys.keysList (l.map Json.str) = [] := by
  induction l with
  | nil => rfl
  | cons x t ih => simp [Json.keys.keysList, Json.keys, ih]

/-- The string leaves of an array of strings are those strings. -/
lemma stringsList_map_str (l : List String) :
    Json.strings.stringsList (l.map Json.str) = l := by
  induction l with
  | nil => rfl
  | cons x t ih => simp [Json.strings.stringsList, Json.strings, ih]

/-- The serialized `UserToken` has exactly the keys
`token, user, id, name, email`. -/
lemma userTokenJson_keys (ut : UserToken) :
    (userTokenJson ut).keys = ["token", "user", "id", "name", "email"] := rfl

/-- The controller's listing projection has exactly the keys
`id, name, email, role`. -/
lemma listedUserJson_keys (u : UserEntity) :
    (listedUserJson u).keys = ["id", "name", "email", "role"] := by
  simp [listedUserJson, Json.keys, Json.keys.keysKV, Json.keys.keysList,
    keysList_map_str]

/-- The full serialized `UserEntity` has the keys
`id, name, email, password, role`. -/
lemma userEntityJson_keys (u : UserEntity) :
    (userEntityJson u).keys = ["id", "name", "email", "password", "role"] := by
  simp [userEntityJson, Json.keys, Json.keys.keysKV, Json.keys.keysList,
    keysList_map_str]

/-- The string leaves of the full serialized `UserEntity`: all five fields,
the stored password hash among them. -/
lemma userEntityJson_strings (u : UserEntity) :
    (userEntityJson u).strings = [u.id, u.name, u.email, u.password] ++ u.role := by
  simp [userEntityJson, Json.strings, Json.strings.stringsKV,
    Json.strings.stringsList, stringsList_map_str]

/-! ## Use-case success inversion -/

/-- `RegisterUser.execute` succeeds only with a signed, truthy token and
the `{id, name, email}` projection of the registered entity. -/
lemma RegisterUser_execute_ok (repoRegister : RegisterUserDto → Except CustomError UserEntity)
    (signToken : SignTokenFunction) (dto : RegisterUserDto) (ut : UserToken)
    (h : RegisterUser.execute repoRegister signToken dto = .ok ut) :
    ∃ u t, repoRegister dto = .ok u ∧ signToken ⟨u.id⟩ "2h" = some t ∧ t ≠ "" ∧
      ut = ⟨t, ⟨u.id, u.name, u.email⟩⟩ := by
  unfold RegisterUser.execute at h
  split at h
  next e he => exact absurd h (by simp)
  next u hu =>
    split at h
    next hs => exact absurd h (by simp)
    next t hs =>
      split at h
      next ht => exact absurd h (by simp)
      next ht => exact ⟨u, t, hu, hs, ht, by injection h with h; exact h.symm⟩

/-- `LoginUser.execute` succeeds only with a signed, truthy token and the
`{id, name, email}` projection of the logged-in entity. -/
lemma LoginUser_execute_ok (repoLogin : LoginUserDto → Except CustomError UserEntity)
    (signToken : SignTokenFunction) (dto : LoginUserDto) (ut : UserToken)
    (h : LoginUser.execute repoLogin signToken dto = .ok ut) :
    ∃ u t, repoLogin dto = .ok u ∧ signToken ⟨u.id⟩ "2h" = some t ∧ t ≠ "" ∧
      ut = ⟨t, ⟨u.id, u.name, u.email⟩⟩ := by
  unfold LoginUser.execute at h
  split at h
  next e he => exact absurd h (by simp)
  next u hu =>
    split at h
    next hs => exact absurd h (by simp)
    next t hs =>
      split at h
      next ht => exact absurd h (by simp)
      next ht => exact ⟨u, t, hu, hs, ht, by injection h with h; exact h.symm⟩

/-- C5 counterexample: on the concrete Ann scenario the protected listing
succeeds and its response JSON contains the stored password hash `"HASH"`
(inside the `authenticatedUser` echo), refuting "in no case does any
response include the stored password hash". -/
theorem claim5_counterexample :
    (protectedListing demoVerify demoStore demoReq).toOption.isSome = true
    ∧ "HASH" ∈ ((protectedListing demoVerify demoStore demoReq).toOption.getD Json.null).strings
    ∧ demoStore.map (fun d => d.password) = [some "HASH"] := by
  refine ⟨rfl, ?_, rfl⟩
  decide

/-- C5 (amended): successful register and login return exactly
`{token, user: {id, name, email}}` (no password key); the listing's
`users` entries are projected to `{id, name, email, role}` (no password
key); but the listing response additionally echoes `authenticatedUser`,
the full middleware-resolved user, whose serialization does include the
stored password hash. -/
theorem claim5_response_shapes_amended
    (repoRegister : RegisterUserDto → Except CustomError UserEntity)
    (repoLogin : LoginUserDto → Except CustomError UserEntity)
    (signToken : SignTokenFunction) (dtoR : RegisterUserDto) (dtoL : LoginUserDto)
    (store : List UserDoc) (body : String → Option BodyVal) :
    (∀ ut, RegisterUser.execute repoRegister signToken dtoR = .ok ut →
      ∃ u, repoRegister dtoR = .ok u ∧ ut.user = ⟨u.id, u.name, u.email⟩)
    ∧ (∀ ut, LoginUser.execute repoLogin signToken dtoL = .ok ut →
        ∃ u, repoLogin dtoL = .ok u ∧ ut.user = ⟨u.id, u.name, u.email⟩)
    ∧ (∀ ut, (userTokenJson ut).keys = ["token", "user", "id", "name", "email"] ∧
        "password" ∉ (userTokenJson ut).keys)
    ∧ (∀ u, (listedUserJson u).keys = ["id", "name", "email", "role"] ∧
        "password" ∉ (listedUserJson u).keys)
    ∧ (∀ users u, UserServiceImpl.getAllUsers store = .ok users →
        body "user" = some (.user u) →
        AuthController.getUsers store body =
          .ok (.obj [("users", .arr (users.map listedUserJson)),
                     ("authenticatedUser", userEntityJson u)]) ∧
        u.password ∈ (userEntityJson u).strings) := by
  refine ⟨?_, ?_, ?_, ?_, ?_⟩
  · intro ut h
    obtain ⟨u, t, hu, _, _, hut⟩ := RegisterUser_execute_ok repoRegister signToken dtoR ut h
    exact ⟨u, hu, by rw [hut]⟩
  · intro ut h
    obtain ⟨u, t, hu, _, _, hut⟩ := LoginUser_execute_ok repoLogin signToken dtoL ut h
    exact ⟨u, hu, by rw [hut]⟩
  · intro ut
    refine ⟨userTokenJson_keys ut, ?_⟩
    rw [userTokenJson_keys]
    decide
  · intro u
    refine ⟨listedUserJson_keys u, ?_⟩
    rw [listedUserJson_keys]
    decide
  · intro users u hall hbody
    constructor
    · unfold AuthController.getUsers
      rw [hall, hbody]
      rfl
    · rw [userEntityJson_strings]
      simp

/-- Witness for C5 (amended) on concrete inputs: a concrete register
succeeds with the projected user, and the concrete listing over
`demoStore` echoes the full Ann entity. -/
theorem claim5_response_shapes_amended_witness :
    (userTokenJson ⟨"tok", ⟨"u1", "Ann", "ann@x.com"⟩⟩).keys =
        ["token", "user", "id", "name", "email"]
    ∧ AuthController.getUsers demoStore
        (fun k => if k = "user" then some (.user ⟨"u1", "Ann", "ann@x.com", "HASH", ["user"]⟩) else none) =
      .ok (.obj [("users", .arr [listedUserJson ⟨"u1", "Ann", "ann@x.com", "HASH", ["user"]⟩]),
                 ("authenticatedUser", userEntityJson ⟨"u1", "Ann", "ann@x.com", "HASH", ["user"]⟩)]) :=
  ⟨(claim5_response_shapes_amended (fun _ => .ok ⟨"u1", "Ann", "ann@x.com", "HASH", ["user"]⟩)
      (fun _ => .ok ⟨"u1", "Ann", "ann@x.com", "HASH", ["user"]⟩)
      (fun _ _ => some "tok") ⟨"Ann", "ann@x.com", "secret1"⟩ ⟨"ann@x.com", "secret1"⟩
      demoStore
      (fun k => if k = "user" then some (.user ⟨"u1", "Ann", "ann@x.com", "HASH", ["user"]⟩) else none)).2.2.1
      ⟨"tok", ⟨"u1", "Ann", "ann@x.com"⟩⟩ |>.1,
   ((claim5_response_shapes_amended (fun _ => .ok ⟨"u1", "Ann", "ann@x.com", "HASH", ["user"]⟩)
      (fun _ => .ok ⟨"u1", "Ann", "ann@x.com", "HASH", ["user"]⟩)
      (fun _ _ => some "tok") ⟨"Ann", "ann@x.com", "secret1"⟩ ⟨"ann@x.com", "secret1"⟩
      demoStore
      (fun k => if k = "user" then some (.user ⟨"u1", "Ann", "ann@x.com", "HASH", ["user"]⟩) else none)).2.2.2.2
      [⟨"u1", "Ann", "ann@x.com", "HASH", ["user"]⟩] ⟨"u1", "Ann", "ann@x.com", "HASH", ["user"]⟩
      rfl rfl).1⟩

/-- C6: when the token signer returns no token (`null` or `""`, i.e. a
falsy value), `RegisterUser.execute` throws the `CustomError` internal
error and `LoginUser.execute` throws a plain `Error`; the boundary's
`handleError` maps both to a 500 response, and no `{token, user}` success
is returned. -/
theorem claim6_token_failure_is_internal_error (signToken : SignTokenFunction)
    (repoRegister : RegisterUserDto → Except CustomError UserEntity)
    (repoLogin : LoginUserDto → Except CustomError UserEntity)
    (dtoR : RegisterUserDto) (dtoL : LoginUserDto) :
    (∀ u, repoRegister dtoR = .ok u → jsFalsy (signToken ⟨u.id⟩ "2h") = true →
      RegisterUser.execute repoRegister signToken dtoR =
        .error (.custom (CustomError.internalServerError "Failed to generate token")) ∧
      handleError (.custom (CustomError.internalServerError "Failed to generate token")) =
        (500, "Failed to generate token"))
    ∧ (∀ u, repoLogin dtoL = .ok u → jsFalsy (signToken ⟨u.id⟩ "2h") = true →
        LoginUser.execute repoLogin signToken dtoL =
          .error (.plain "Failed to generate token") ∧
        handleError (.plain "Failed to generate token") = (500, "Internal Server Error")) := by
  constructor
  · intro u hu hf
    refine ⟨?_, rfl⟩
    unfold RegisterUser.execute
    rw [hu]
    cases hs : signToken ⟨u.id⟩ "2h" with
    | none => simp [hs]
    | some t =>
      rw [hs] at hf
      simp only [jsFalsy, decide_eq_true_eq] at hf
      simp [hs, hf]
  · intro u hu hf
    refine ⟨?_, rfl⟩
    unfold LoginUser.execute
    rw [hu]
    cases hs : signToken ⟨u.id⟩ "2h" with
    | none => simp [hs]
    | some t =>
      rw [hs] at hf
      simp only [jsFalsy, decide_eq_true_eq] at hf
      simp [hs, hf]

/-- Witness for C6: with a signer that always returns `null`, register
fails with the 500 `CustomError` and login with the plain error. -/
theorem claim6_token_failure_is_internal_error_witness :
    RegisterUser.execute (fun _ => .ok ⟨"u1", "Ann", "ann@x.com", "HASH", ["user"]⟩)
        (fun _ _ => none) ⟨"Ann", "ann@x.com", "secret1"⟩ =
      .error (.custom (CustomError.internalServerError "Failed to generate token"))
    ∧ LoginUser.execute (fun _ => .ok ⟨"u1", "Ann", "ann@x.com", "HASH", ["user"]⟩)
        (fun _ _ => none) ⟨"ann@x.com", "secret1"⟩ =
      .error (.plain "Failed to generate token") :=
  ⟨((claim6_token_failure_is_internal_error (fun _ _ => none)
      (fun _ => .ok ⟨"u1", "Ann", "ann@x.com", "HASH", ["user"]⟩)
      (fun _ => .ok ⟨"u1", "Ann", "ann@x.com", "HASH", ["user"]⟩)
      ⟨"Ann", "ann@x.com", "secret1"⟩ ⟨"ann@x.com", "secret1"⟩).1
      ⟨"u1", "Ann", "ann@x.com", "HASH", ["user"]⟩ rfl rfl).1,
   ((claim6_token_failure_is_internal_error (fun _ _ => none)
      (fun _ => .ok ⟨"u1", "Ann", "ann@x.com", "HASH", ["user"]⟩)
      (fun _ => .ok ⟨"u1", "Ann", "ann@x.com", "HASH", ["user"]⟩)
      ⟨"Ann", "ann@x.com", "secret1"⟩ ⟨"ann@x.com", "secret1"⟩).2
      ⟨"u1", "Ann", "ann@x.com", "HASH", ["user"]⟩ rfl rfl).1⟩

/-- Appending a well-mapped document to a store that lists successfully
appends its entity to the listing. -/
lemma getAllUsers_append (store : List UserDoc) (doc : UserDoc)
    (users : List UserEntity) (u : UserEntity)
    (hall : UserServiceImpl.getAllUsers store = .ok users)
    (hdoc : UserMapper.userEntityFromObject doc = .ok u) :
    UserServiceImpl.getAllUsers (store ++ [doc]) = .ok (users ++ [u]) := by
  induction store generalizing users with
  | nil =>
    unfold UserServiceImpl.getAllUsers at hall
    injection hall with hall
    subst hall
    simp [UserServiceImpl.getAllUsers, hdoc]
  | cons d rest ih =>
    unfold UserServiceImpl.getAllUsers at hall
    cases hd : UserMapper.userEntityFromObject d with
    | error e => rw [hd] at hall; exact absurd hall (by simp)
    | ok u' =>
      rw [hd] at hall
      cases hr : UserServiceImpl.getAllUsers rest with
      | error e => rw [hr] at hall; exact absurd hall (by simp)
      | ok us' =>
        rw [hr] at hall
        injection hall with hall
        subst hall
        have := ih us' hr
        simp only [List.cons_append]
        unfold UserServiceImpl.getAllUsers
        rw [hd, this]

/-- C7: a user created by registration carries the default role list
`["user"]` (both in the stored document and in the returned entity), and
the protected listing subsequently reports that user projected with
`role = ["user"]`. -/
theorem claim7_default_role_user (hashPassword : String → String)
    (store : List UserDoc) (newId : String) (dto : RegisterUserDto)
    (hdup : findOneByEmail store dto.email = none) (hid : newId ≠ "")
    (hname : dto.name ≠ "") (hemail : dto.email ≠ "")
    (hpw : hashPassword dto.password ≠ "") :
    AuthMongoDatasourceImpl.register hashPassword store newId dto =
      (.ok ⟨newId, dto.name, dto.email, hashPassword dto.password, ["user"]⟩,
       store ++ [{ _id := some newId, id := some newId, name := some dto.name,
                   email := some dto.email,
                   password := some (hashPassword dto.password),
                   roles := some ["user"] }])
    ∧ (∀ users, UserServiceImpl.getAllUsers store = .ok users →
        UserServiceImpl.getAllUsers
            (store ++ [{ _id := some newId, id := some newId, name := some dto.name,
                         email := some dto.email,
                         password := some (hashPassword dto.password),
                         roles := some ["user"] }]) =
          .ok (users ++ [⟨newId, dto.name, dto.email, hashPassword dto.password, ["user"]⟩]))
    ∧ listedUserJson ⟨newId, dto.name, dto.email, hashPassword dto.password, ["user"]⟩ =
        .obj [("id", .str newId), ("name", .str dto.name), ("email", .str dto.email),
              ("role", .arr [.str "user"])] := by
  have hmap : UserMapper.userEntityFromObject
      { _id := some newId, id := some newId, name := some dto.name,
        email := some dto.email, password := some (hashPassword dto.password),
        roles := some ["user"] } =
      .ok ⟨newId, dto.name, dto.email, hashPassword dto.password, ["user"]⟩ := by
    unfold UserMapper.userEntityFromObject
    simp [jsFalsy, jsOr, hid, hname, hemail, hpw, defaultRoles]
  refine ⟨?_, ?_, rfl⟩
  · unfold AuthMongoDatasourceImpl.register
    rw [hdup]
    simp only [defaultRoles]
    rw [hmap]
  · intro users hall
    exact getAllUsers_append store _ users _ hall hmap

/-- Witness for C7: registering Ann into the empty store creates her with
role `["user"]`, and the listing of the resulting store reports exactly
her projected entry. -/
theorem claim7_default_role_user_witness :
    AuthMongoDatasourceImpl.register (fun p => String.append "h:" p) [] "u1"
        ⟨"Ann", "ann@x.com", "secret1"⟩ =
      (.ok ⟨"u1", "Ann", "ann@x.com", "h:secret1", ["user"]⟩,
       [{ _id := some "u1", id := some "u1", name := some "Ann",
          email := some "ann@x.com", password := some "h:secret1",
          roles := some ["user"] }])
    ∧ UserServiceImpl.getAllUsers
        [{ _id := some "u1", id := some "u1", name := some "Ann",
           email := some "ann@x.com", password := some "h:secret1",
           roles := some ["user"] }] =
      .ok [⟨"u1", "Ann", "ann@x.com", "h:secret1", ["user"]⟩] := by
  have h := claim7_default_role_user (fun p => String.append "h:" p) [] "u1"
    ⟨"Ann", "ann@x.com", "secret1"⟩ rfl (by decide) (by decide) (by decide) (by decide)
  exact ⟨h.1, h.2.1 [] rfl⟩

/-- C8: `findById` returns `null` exactly when no document with that id
exists (and the corresponding mapped user otherwise); `findById` and
`getAllUsers` leave the store unchanged, and repeating either call on the
unchanged store returns an equal result. -/
theorem claim8_find_read_only (store : List UserDoc) (id : String) :
    (UserServiceImpl.findById store id = .ok none ↔ findDocById store id = none)
    ∧ (∀ doc u, findDocById store id = some doc →
        UserMapper.userEntityFromObject doc = .ok u →
        UserServiceImpl.findById store id = .ok (some u))
    ∧ (UserServiceImpl.findByIdRun store id).2 = store
    ∧ (UserServiceImpl.getAllUsersRun store).2 = store
    ∧ (UserServiceImpl.findByIdRun ((UserServiceImpl.findByIdRun store id).2) id).1 =
        (UserServiceImpl.findByIdRun store id).1
    ∧ (UserServiceImpl.getAllUsersRun ((UserServiceImpl.getAllUsersRun store).2)).1 =
        (UserServiceImpl.getAllUsersRun store).1 := by
  refine ⟨?_, ?_, rfl, rfl, rfl, rfl⟩
  · unfold UserServiceImpl.findById
    cases hf : findDocById store id with
    | none => simp
    | some doc =>
      simp only
      constructor
      · intro h
        cases hm : UserMapper.userEntityFromObject doc with
        | error e => rw [hm] at h; exact absurd h (by simp [Except.map])
        | ok u => rw [hm] at h; exact absurd h (by simp [Except.map])
      · intro h
        exact absurd h (by simp)
  · intro doc u hf hm
    unfold UserServiceImpl.findById
    rw [hf]
    simp [hm, Except.map]

/-- Witness for C8: on `demoStore`, id `"u1"` resolves to Ann's entity,
id `"zz"` resolves to `null`, and both run-forms leave the store
unchanged. -/
theorem claim8_find_read_only_witness :
    UserServiceImpl.findById demoStore "u1" =
        .ok (some ⟨"u1", "Ann", "ann@x.com", "HASH", ["user"]⟩)
    ∧ (UserServiceImpl.findById demoStore "zz" = .ok none ↔ findDocById demoStore "zz" = none)
    ∧ (UserServiceImpl.findByIdRun demoStore "u1").2 = demoStore :=
  ⟨(claim8_find_read_only demoStore "u1").2.1 _ _ rfl rfl,
   (claim8_find_read_only demoStore "zz").1,
   (claim8_find_read_only demoStore "u1").2.2.1⟩

/-- C9: `RegisterUserDto.create` errors exactly when the name is missing
(falsy), the email is missing or fails the email test, or the password is
missing or shorter than 6 characters, and otherwise preserves the three
fields unchanged; `LoginUserDto.create` errors exactly when the email is
missing or fails the email test, or the password is missing — with no
length requirement at login. -/
theorem claim9_dto_validation (emailTest : String → Bool) (o : RawBody) :
    ((∃ e, RegisterUserDto.create emailTest o = .error e) ↔
      (jsFalsy o.name = true ∨ jsFalsy o.email = true ∨
       emailTest (o.email.getD "") = false ∨ jsFalsy o.password = true ∨
       (o.password.getD "").length < 6))
    ∧ (∀ dto, RegisterUserDto.create emailTest o = .ok dto →
        o.name = some dto.name ∧ o.email = some dto.email ∧ o.password = some dto.password)
    ∧ ((∃ e, LoginUserDto.create emailTest o = .error e) ↔
      (jsFalsy o.email = true ∨ emailTest (o.email.getD "") = false ∨
       jsFalsy o.password = true))
    ∧ (∀ dto, LoginUserDto.create emailTest o = .ok dto →
        o.email = some dto.email ∧ o.password = some dto.password) := by
  unfold RegisterUserDto.create LoginUserDto.create
  refine ⟨?_, ?_, ?_, ?_⟩ <;> split_ifs <;> simp_all [jsFalsy] <;>
    cases hn : o.name <;> cases he : o.email <;> cases hp : o.password <;>
    simp_all [jsFalsy]

/-- Witness for C9: a concrete valid body yields the preserved DTOs and an
invalid one errors. -/
theorem claim9_dto_validation_witness :
    (∀ dto, RegisterUserDto.create demoEmailTest
        ⟨some "Ann", some "ann@x.com", some "secret1"⟩ = .ok dto →
      (⟨some "Ann", some "ann@x.com", some "secret1"⟩ : RawBody).name = some dto.name ∧
      (⟨some "Ann", some "ann@x.com", some "secret1"⟩ : RawBody).email = some dto.email ∧
      (⟨some "Ann", some "ann@x.com", some "secret1"⟩ : RawBody).password = some dto.password)
    ∧ ((∃ e, LoginUserDto.create demoEmailTest
        ⟨none, some "ann@x.com", none⟩ = .error e) ↔
      (jsFalsy ((⟨none, some "ann@x.com", none⟩ : RawBody)).email = true ∨
       demoEmailTest (((⟨none, some "ann@x.com", none⟩ : RawBody)).email.getD "") = false ∨
       jsFalsy ((⟨none, some "ann@x.com", none⟩ : RawBody)).password = true)) :=
  ⟨(claim9_dto_validation demoEmailTest
      ⟨some "Ann", some "ann@x.com", some "secret1"⟩).2.1,
   (claim9_dto_validation demoEmailTest
      ⟨none, some "ann@x.com", none⟩).2.2.1⟩

/-- C10: on successful authorization the rewritten body is the spread of
the prior body with the decoded payload and the resolved user: every key
other than `"payload"` and `"user"` is preserved unchanged, while
`"payload"` and `"user"` hold the server-resolved values — and the
`authenticatedUser` echoed by the listing endpoint is exactly the
serialization of the token-resolved user. -/
theorem claim10_body_rewrite_frame (v : String → Option JwtPayload)
    (st : List UserDoc) (req : MwRequest) (b : String → Option BodyVal)
    (h : AuthMiddleware.validateJWT v st req = .proceed b) :
    (∀ k, k ≠ "payload" → k ≠ "user" → b k = req.body k)
    ∧ ∃ a p u, normalizeAuthHeader req.authorization = some a ∧
        v (extractToken a) = some p ∧
        UserServiceImpl.findById st p.id = .ok (some u) ∧
        b "payload" = some (.payload p) ∧ b "user" = some (.user u) ∧
        (∀ users, UserServiceImpl.getAllUsers st = .ok users →
          AuthController.getUsers st b =
            .ok (.obj [("users", .arr (users.map listedUserJson)),
                       ("authenticatedUser", userEntityJson u)])) := by
  obtain ⟨a, p, u, hn, ha, hb, hv, hf, hbody⟩ := validateJWT_proceed_inv v st req b h
  subst hbody
  refine ⟨?_, a, p, u, hn, hv, hf, ?_, ?_, ?_⟩
  · intro k hk1 hk2
    simp [hk1, hk2]
  · simp
  · simp
  · intro users hall
    unfold AuthController.getUsers
    rw [hall]
    simp [bodyValJson]

/-- Witness for C10 at the concrete request: the middleware proceeds with
`demoBody`, and a client key untouched by the spread is preserved. -/
theorem claim10_body_rewrite_frame_witness :
    demoBody "article" = demoReq.body "article" :=
  (claim10_body_rewrite_frame demoVerify demoStore demoReq demoBody rfl).1
    "article" (by decide) (by decide)

end NodeAuth
